import Mathlib

/-!
Shallow embedding of `extension.py` (the emesene extension registry).

Python classes are modelled by `PyClass`: the absolute path of the module
file the class lives in (`modulePath`, the value of
`os.path.abspath(sys.modules[cls.__module__].__file__)`), the class name
(`cls.__name__`) and the set of attribute names the class exposes (own and
inherited), each tagged with whether the attribute is callable.  Python
strings are `List Char`.  Python dicts are association lists with
first-match lookup and in-place overwrite, mirroring dict semantics
(`dlookup` / `dinsert`).

Exceptions are modelled with an explicit error type: stateful operations
return the resulting state paired with an optional error (in this module
every `raise` happens before any mutation, so on error the returned state
is the unmodified input state, exactly as in the Python code), and pure
reads return `Except`.
-/

set_option autoImplicit false

abbrev PyStr := List Char

/-- A Python class, as far as the registry observes it: where it was
defined, its name, and its attribute names (own and inherited) with a flag
recording whether the attribute's value is callable. -/
structure PyClass where
  modulePath : PyStr
  name : PyStr
  attrs : List (PyStr × Bool)
deriving DecidableEq

/-- An interface argument: either an actual interface class or Python's
`None` (the code's `is_implementation` accepts `None` and every class
implements it, since `dir(None)` has only underscore-prefixed names). -/
abbrev Iface := Option PyClass

/-- The exceptions this module can raise.  `interfaceMismatch` is the
`ValueError("cls doesn't agree to the interface: %s" % str(interface))`
raised by `Category.register`; `unknownExtensionId` is the
`ValueError('extension id not registered on %s' % self.name)` raised by
`Category.set_default_by_id`; `keyError` is the `KeyError` a Python dict
lookup raises; `attributeError` is the `AttributeError` raised when an
attribute lookup on an object fails. -/
inductive PyError where
  | interfaceMismatch (interface : Iface)
  | unknownExtensionId (categoryName : PyStr)
  | keyError (key : PyStr)
  | attributeError (attr : PyStr)
deriving DecidableEq

/-- Python dict lookup `d[k]` as an option: first entry with the key. -/
def dlookup {α β : Type} [DecidableEq α] (k : α) : List (α × β) → Option β
  | [] => none
  | (k', v') :: rest => if k' = k then some v' else dlookup k rest

/-- Python dict assignment `d[k] = v`: overwrite in place if the key is
present (keeping its position, as dicts do), else append a new entry. -/
def dinsert {α β : Type} [DecidableEq α] (k : α) (v : β) : List (α × β) → List (α × β)
  | [] => [(k, v)]
  | (k', v') :: rest => if k' = k then (k, v) :: rest else (k', v') :: dinsert k v rest

/-- Python `name.startswith('_')`. -/
def startsUnderscore : PyStr → Bool
  | [] => false
  | c :: _ => c = '_'

/-- The list comprehension in `is_implementation`:
`[attribute for attribute in dir(interface_cls) if not attribute.startswith('_')]`.
For `None` this is empty (every attribute of `None` starts with `_`). -/
def public_methods : Iface → List PyStr
  | none => []
  | some interface_cls =>
      (interface_cls.attrs.map Prod.fst).filter (fun attrName => !startsUnderscore attrName)

/-- Python `hasattr(cls, m)`: the class exposes an attribute named `m`
(callable or not). -/
def hasattr (cls : PyClass) (m : PyStr) : Bool :=
  cls.attrs.any (fun p => p.1 == m)

/-- `is_implementation(cls, interface_cls)` from `extension.py`:
check that `cls` has every non-underscore attribute name of
`interface_cls` (via `hasattr`; note the code never checks that the
attribute is callable). -/
def is_implementation (cls : PyClass) (interface_cls : Iface) : Bool :=
  (public_methods interface_cls).all (fun method => hasattr cls method)

/-- Python `path.endswith('.pyc')`. -/
def endsPyc (path : PyStr) : Bool :=
  match path.reverse with
  | 'c' :: 'y' :: 'p' :: '.' :: _ => true
  | _ => false

/-- `_get_class_name(cls)` from `extension.py`: the absolute path of the
module file (with a trailing `c` stripped when it ends in `.pyc`,
i.e. `path[:-1]`), then `':'`, then the class name. -/
def _get_class_name (cls : PyClass) : PyStr :=
  (if endsPyc cls.modulePath then cls.modulePath.dropLast else cls.modulePath)
    ++ ':' :: cls.name

/-- The `Category` object.  `self.instances = {}` from `__init__` is
omitted: no code in the module ever reads or writes it again.
`default_id` has no value before `__init__` runs `self.default =
system_default`; `Category.init` below always overwrites the placeholder
on the only path that produces a `Category`. -/
structure Category where
  name : PyStr
  system_default : PyClass
  interfaces : List Iface
  classes : List (PyStr × PyClass)
  ids : List (PyClass × PyStr)
  default_id : PyStr
deriving DecidableEq

/-- `Category.register(cls)`: check every interface first (raising
`ValueError` at the first failure, before any mutation), then store the
class under its computed id in `classes` and record the id in `ids`. -/
def Category.register (c : Category) (cls : PyClass) : Category × Option PyError :=
  match c.interfaces.find? (fun interface => !is_implementation cls interface) with
  | some interface => (c, some (PyError.interfaceMismatch interface))
  | none =>
      let class_name := _get_class_name cls
      ({ c with
          classes := dinsert class_name cls c.classes,
          ids := dinsert cls class_name c.ids }, none)

/-- `Category.get_extensions()`: returns the `classes` dict. -/
def Category.get_extensions (c : Category) : List (PyStr × PyClass) :=
  c.classes

/-- `Category._set_default(cls)` (the setter of the `default` property):
register `cls` when it is not a key of `ids`, then point `default_id` at
its class name.  When the inner `register` raises, the exception
propagates and `default_id` is not assigned. -/
def Category._set_default (c : Category) (cls : PyClass) : Category × Option PyError :=
  match (if (dlookup cls c.ids).isNone then c.register cls else (c, none)) with
  | (c', some e) => (c', some e)
  | (c', none) => ({ c' with default_id := _get_class_name cls }, none)

/-- `Category._get_default()` (the getter of the `default` property):
`self.classes[self.default_id]`, a dict lookup that raises `KeyError`
when the key is absent. -/
def Category._get_default (c : Category) : Except PyError PyClass :=
  match dlookup c.default_id c.classes with
  | some cls => Except.ok cls
  | none => Except.error (PyError.keyError c.default_id)

/-- `Category.set_default_by_id(id_)`: raise `ValueError` when `id_` is
not a key of `classes`, else assign `self.default = self.classes[id_]`. -/
def Category.set_default_by_id (c : Category) (id_ : PyStr) : Category × Option PyError :=
  match dlookup id_ c.classes with
  | none => (c, some (PyError.unknownExtensionId c.name))
  | some cls => c._set_default cls

/-- `Category.__init__(name, system_default, interfaces)`: normalise
`interfaces` (`None` becomes the empty tuple), start with empty dicts and
run `self.default = system_default`, i.e. `_set_default`, which registers
the system default (checking the interfaces, so construction can raise
`ValueError`) and sets `default_id`. -/
def Category.init (name : PyStr) (system_default : PyClass)
    (interfaces : Option (List Iface)) : Except PyError Category :=
  let c : Category :=
    { name := name
      system_default := system_default
      interfaces := interfaces.getD []
      classes := []
      ids := []
      default_id := [] }
  match c._set_default system_default with
  | (_, some e) => Except.error e
  | (c', none) => Except.ok c'

/-- The module-level `_categories` dict: category name to `Category`. -/
abbrev Registry := List (PyStr × Category)

/-- Module-level `category_register(category, system_default, *interfaces)`:
`_categories[category] = Category(category, system_default, interfaces)`.
The right-hand side is evaluated first, so when `Category.__init__` raises
the dict is left unchanged.  `interfaces` arrives as a tuple (never
`None`). -/
def category_register (reg : Registry) (category : PyStr) (system_default : PyClass)
    (interfaces : List Iface) : Registry × Option PyError :=
  match Category.init category system_default (some interfaces) with
  | Except.error e => (reg, some e)
  | Except.ok cat => (dinsert category cat reg, none)

/-- Module-level `get_category(category_name)`: `_categories[category_name]`,
raising `KeyError` on a missing name. -/
def get_category (reg : Registry) (category_name : PyStr) : Except PyError Category :=
  match dlookup category_name reg with
  | some c => Except.ok c
  | none => Except.error (PyError.keyError category_name)

/-- Module-level `register(category_name, cls)`:
`get_category(category_name).register(cls)`.  The Python call mutates the
`Category` object held in `_categories`, so on success the updated
category is what the registry maps the name to; on an exception the
registry is unchanged. -/
def register (reg : Registry) (category_name : PyStr) (cls : PyClass) :
    Registry × Option PyError :=
  match get_category reg category_name with
  | Except.error e => (reg, some e)
  | Except.ok cat =>
      match cat.register cls with
      | (_, some e) => (reg, some e)
      | (cat', none) => (dinsert category_name cat' reg, none)

/-- Module-level `get_extensions(category_name)`. -/
def get_extensions (reg : Registry) (category_name : PyStr) :
    Except PyError (List (PyStr × PyClass)) :=
  match get_category reg category_name with
  | Except.error e => Except.error e
  | Except.ok cat => Except.ok cat.get_extensions

/-- Module-level `get_default(category_name)`: the category's `default`
property, i.e. `_get_default`. -/
def get_default (reg : Registry) (category_name : PyStr) : Except PyError PyClass :=
  match get_category reg category_name with
  | Except.error e => Except.error e
  | Except.ok cat => cat._get_default

/-- Module-level `set_default(category_name, cls)` as written in the
source: `get_category(category_name).set_default(cls)`.  Class `Category`
defines no attribute named `set_default` (the setter is the `default`
property, whose underlying method is `_set_default`), so after
`get_category` succeeds the attribute lookup itself raises
`AttributeError`; nothing is registered and no default changes. -/
def set_default (reg : Registry) (category_name : PyStr) (cls : PyClass) :
    Registry × Option PyError :=
  match get_category reg category_name with
  | Except.error e => (reg, some e)
  | Except.ok _ => (reg, some (PyError.attributeError ("set_default".data)))

/-- Module-level `set_default_by_id(category_name, id_)`: delegates to the
category; mutation of the shared object is reflected by writing the
updated category back under its name. -/
def set_default_by_id (reg : Registry) (category_name : PyStr) (id_ : PyStr) :
    Registry × Option PyError :=
  match get_category reg category_name with
  | Except.error e => (reg, some e)
  | Except.ok cat =>
      match cat.set_default_by_id id_ with
      | (_, some e) => (reg, some e)
      | (cat', none) => (dinsert category_name cat' reg, none)

/-- Module-level `get_system_default(category_name)`. -/
def get_system_default (reg : Registry) (category_name : PyStr) :
    Except PyError PyClass :=
  match get_category reg category_name with
  | Except.error e => Except.error e
  | Except.ok cat => Except.ok cat.system_default

/-- The module path as `_get_class_name` normalises it: `path[:-1]` when
the path ends in `.pyc` (turning `.pyc` into `.py`), else unchanged. -/
def normalizedPath (cls : PyClass) : PyStr :=
  if endsPyc cls.modulePath then cls.modulePath.dropLast else cls.modulePath

/-- Conformance as the specification words it, for comparison with the
source's `is_implementation`: every required operation name must be
present as a callable member of the class (same required names, but the
member must carry the callable flag). -/
def is_implementation_spec (cls : PyClass) (interface_cls : Iface) : Bool :=
  (public_methods interface_cls).all
    (fun method => cls.attrs.any (fun p => p.1 == method && p.2))

deriving instance DecidableEq for Except

/-- Well-formedness of a `Category` state: every entry of `classes` is
stored under the id computed from the stored class and its class is a key
of `ids`; the current `default_id` and the system default's id are keys of
`classes`; and every entry of `ids` maps a class to its computed id, which
is a key of `classes`. -/
def WF (c : Category) : Prop :=
  (∀ p ∈ c.classes, _get_class_name p.2 = p.1) ∧
  (∀ p ∈ c.classes, (dlookup p.2 c.ids).isSome = true) ∧
  (dlookup c.default_id c.classes).isSome = true ∧
  (dlookup (_get_class_name c.system_default) c.classes).isSome = true ∧
  (∀ q ∈ c.ids, q.2 = _get_class_name q.1 ∧ (dlookup q.2 c.classes).isSome = true)

instance (c : Category) : Decidable (WF c) := by
  unfold WF
  infer_instance

/-- The category states reachable from `Category.__init__` by any sequence
of `register`, default-setter (`_set_default`) and `set_default_by_id`
calls, whether they succeed or raise (a raising call leaves the state
unchanged). -/
inductive Reachable : Category → Prop where
  | init : ∀ (name : PyStr) (system_default : PyClass)
      (interfaces : Option (List Iface)) (c : Category),
      Category.init name system_default interfaces = Except.ok c → Reachable c
  | register : ∀ (c : Category) (cls : PyClass),
      Reachable c → Reachable (c.register cls).1
  | set_default : ∀ (c : Category) (cls : PyClass),
      Reachable c → Reachable (c._set_default cls).1
  | set_default_by_id : ∀ (c : Category) (id_ : PyStr),
      Reachable c → Reachable (c.set_default_by_id id_).1

/-! ### Concrete classes, categories and registries used in the closed
statements below (the end-to-end scenario of the specification). -/

def dialogName : PyStr := "dialog".data

/-- An interface class requiring the single public operation `confirm`. -/
def iConfirm : PyClass :=
  { modulePath := ("/ifc.py".data), name := ("IConfirm".data),
    attrs := [(("confirm".data), true), (("__init__".data), true)] }

/-- A conforming dialog implementation, used as system default. -/
def basicDialog : PyClass :=
  { modulePath := ("/basic.py".data), name := ("BasicDialog".data),
    attrs := [(("confirm".data), true)] }

/-- A second conforming dialog implementation. -/
def fancyDialog : PyClass :=
  { modulePath := ("/fancy.py".data), name := ("FancyDialog".data),
    attrs := [(("confirm".data), true)] }

/-- A non-conforming implementation: it lacks `confirm`. -/
def brokenDialog : PyClass :=
  { modulePath := ("/broken.py".data), name := ("BrokenDialog".data),
    attrs := [(("cancel".data), true)] }

/-- A class whose `confirm` attribute exists but is not callable (for
instance a plain data attribute of that name). -/
def lazyDialog : PyClass :=
  { modulePath := ("/lazy.py".data), name := ("LazyDialog".data),
    attrs := [(("confirm".data), false)] }

/-- A class distinct from `basicDialog` (different attributes, e.g. the
module was redefined) living in the same module file with the same class
name. -/
def basicDialogTwin : PyClass :=
  { modulePath := ("/basic.py".data), name := ("BasicDialog".data),
    attrs := [(("confirm".data), true), (("cancel".data), true)] }

/-- The category produced by `Category("dialog", BasicDialog, (IConfirm,))`. -/
def dialogCat : Category :=
  { name := dialogName, system_default := basicDialog,
    interfaces := [some iConfirm],
    classes := [(_get_class_name basicDialog, basicDialog)],
    ids := [(basicDialog, _get_class_name basicDialog)],
    default_id := _get_class_name basicDialog }

/-- The dialog category after a (first) successful `register(BasicDialog)`
call — re-registering the class that is also the current default. -/
def dialogCatDup : Category := (dialogCat.register basicDialog).1

/-- A registry holding the dialog category. -/
def dialogReg : Registry := [(dialogName, dialogCat)]

/-- Registry after `category_register("dialog", BasicDialog, IConfirm)`. -/
def c5reg0 : Registry :=
  (category_register [] dialogName basicDialog [some iConfirm]).1

/-- ... then after `register("dialog", FancyDialog)`. -/
def c5reg1 : Registry := (register c5reg0 dialogName fancyDialog).1

/-- ... then after calling `category_register` a second time with the same
name. -/
def c5reg2 : Registry :=
  (category_register c5reg1 dialogName basicDialog [some iConfirm]).1

/-- Statement helper for concrete examples: the extensions dict of a
category name, empty when the lookup fails. -/
def extensions_of (reg : Registry) (category_name : PyStr) :
    List (PyStr × PyClass) :=
  match get_extensions reg category_name with
  | Except.ok exts => exts
  | Except.error _ => []

/-! ### Association-list (dict) lemmas -/

theorem dlookup_dinsert_self {α β : Type} [DecidableEq α] (k : α) (v : β)
    (d : List (α × β)) : dlookup k (dinsert k v d) = some v := by
  induction d with
  | nil => simp [dinsert, dlookup]
  | cons p rest ih =>
      obtain ⟨k', v'⟩ := p
      by_cases h : k' = k
      · simp [dinsert, dlookup, h]
      · simp [dinsert, dlookup, h, ih]

theorem dlookup_dinsert_ne {α β : Type} [DecidableEq α] {k k' : α} (v : β)
    (d : List (α × β)) (h : k' ≠ k) : dlookup k' (dinsert k v d) = dlookup k' d := by
  have hne : ¬ k = k' := fun he => h he.symm
  induction d with
  | nil => simp [dinsert, dlookup, hne]
  | cons p rest ih =>
      obtain ⟨k'', v'⟩ := p
      by_cases h2 : k'' = k
      · subst h2
        simp [dinsert, dlookup, hne]
      · simp only [dinsert, if_neg h2]
        by_cases h3 : k'' = k'
        · simp [dlookup, h3]
        · simp [dlookup, h3, ih]

theorem isSome_dlookup_dinsert {α β : Type} [DecidableEq α] (k : α) (v : β)
    {k' : α} {d : List (α × β)} (h : (dlookup k' d).isSome = true) :
    (dlookup k' (dinsert k v d)).isSome = true := by
  by_cases he : k' = k
  · subst he
    simp [dlookup_dinsert_self]
  · rwa [dlookup_dinsert_ne v d he]

theorem mem_dinsert {α β : Type} [DecidableEq α] {p : α × β} {k : α} {v : β}
    {d : List (α × β)} (hp : p ∈ dinsert k v d) : p = (k, v) ∨ p ∈ d := by
  induction d with
  | nil => simpa [dinsert] using hp
  | cons q rest ih =>
      obtain ⟨k', v'⟩ := q
      by_cases h : k' = k
      · simp only [dinsert, if_pos h, List.mem_cons] at hp
        rcases hp with h1 | h1
        · exact Or.inl h1
        · exact Or.inr (List.mem_cons_of_mem _ h1)
      · simp only [dinsert, if_neg h, List.mem_cons] at hp
        rcases hp with h1 | h1
        · right
          rw [h1]
          exact List.mem_cons_self _ _
        · rcases ih h1 with h2 | h2
          · exact Or.inl h2
          · exact Or.inr (List.mem_cons_of_mem _ h2)

theorem dlookup_mem {α β : Type} [DecidableEq α] {k : α} {v : β}
    {d : List (α × β)} (h : dlookup k d = some v) : (k, v) ∈ d := by
  induction d with
  | nil => simp [dlookup] at h
  | cons q rest ih =>
      obtain ⟨k', v'⟩ := q
      by_cases h2 : k' = k
      · subst h2
        simp [dlookup] at h
        rw [← h]
        exact List.mem_cons_self _ _
      · simp only [dlookup, if_neg h2] at h
        exact List.mem_cons_of_mem _ (ih h)

theorem dinsert_dinsert_self {α β : Type} [DecidableEq α] (k : α) (v : β)
    (d : List (α × β)) : dinsert k v (dinsert k v d) = dinsert k v d := by
  induction d with
  | nil => simp [dinsert]
  | cons q rest ih =>
      obtain ⟨k', v'⟩ := q
      by_cases h : k' = k
      · simp [dinsert, h]
      · simp [dinsert, h, ih]

/-! ### Characterizations of the operations -/

theorem register_err {c : Category} {cls : PyClass} {c' : Category} {e : PyError}
    (h : c.register cls = (c', some e)) :
    c' = c ∧ ∃ i, e = PyError.interfaceMismatch i ∧ i ∈ c.interfaces ∧
      is_implementation cls i = false := by
  cases hf : c.interfaces.find? (fun interface => !is_implementation cls interface) with
  | none => simp [Category.register, hf] at h
  | some i =>
      simp only [Category.register, hf, Prod.mk.injEq, Option.some.injEq] at h
      obtain ⟨h1, h2⟩ := h
      refine ⟨h1.symm, i, h2.symm, List.mem_of_find?_eq_some hf, ?_⟩
      have := List.find?_some hf
      simpa using this

theorem register_ok {c : Category} {cls : PyClass} {c' : Category}
    (h : c.register cls = (c', none)) :
    (∀ i ∈ c.interfaces, is_implementation cls i = true) ∧
    c' = { c with
            classes := dinsert (_get_class_name cls) cls c.classes,
            ids := dinsert cls (_get_class_name cls) c.ids } := by
  cases hf : c.interfaces.find? (fun interface => !is_implementation cls interface) with
  | some i => simp [Category.register, hf] at h
  | none =>
      constructor
      · intro i hi
        have := List.find?_eq_none.mp hf i hi
        simpa using this
      · simp only [Category.register, hf, Prod.mk.injEq] at h
        exact h.1.symm

theorem register_eq_err {c : Category} {cls : PyClass}
    (h : ∃ i ∈ c.interfaces, is_implementation cls i = false) :
    ∃ i ∈ c.interfaces, is_implementation cls i = false ∧
      c.register cls = (c, some (PyError.interfaceMismatch i)) := by
  cases hf : c.interfaces.find? (fun interface => !is_implementation cls interface) with
  | none =>
      exfalso
      obtain ⟨i, hi, hbad⟩ := h
      have := List.find?_eq_none.mp hf i hi
      simp [hbad] at this
  | some i =>
      refine ⟨i, List.mem_of_find?_eq_some hf, ?_, ?_⟩
      · have := List.find?_some hf
        simpa using this
      · simp [Category.register, hf]

theorem register_eq_ok {c : Category} {cls : PyClass}
    (h : ∀ i ∈ c.interfaces, is_implementation cls i = true) :
    c.register cls =
      ({ c with
          classes := dinsert (_get_class_name cls) cls c.classes,
          ids := dinsert cls (_get_class_name cls) c.ids }, none) := by
  have hf : c.interfaces.find? (fun interface => !is_implementation cls interface) = none := by
    apply List.find?_eq_none.mpr
    intro i hi
    simp [h i hi]
  simp [Category.register, hf]

theorem set_default_eq_registered {c : Category} {cls : PyClass} {k : PyStr}
    (hl : dlookup cls c.ids = some k) :
    c._set_default cls = ({ c with default_id := _get_class_name cls }, none) := by
  simp [Category._set_default, hl]

theorem set_default_eq_new {c : Category} {cls : PyClass}
    (hl : dlookup cls c.ids = none)
    (hok : ∀ i ∈ c.interfaces, is_implementation cls i = true) :
    c._set_default cls =
      ({ c with
          classes := dinsert (_get_class_name cls) cls c.classes,
          ids := dinsert cls (_get_class_name cls) c.ids,
          default_id := _get_class_name cls }, none) := by
  simp [Category._set_default, hl, register_eq_ok hok]

theorem set_default_err {c : Category} {cls : PyClass} {c' : Category} {e : PyError}
    (h : c._set_default cls = (c', some e)) :
    c' = c ∧ dlookup cls c.ids = none ∧ c.register cls = (c, some e) := by
  cases hl : dlookup cls c.ids with
  | some k =>
      rw [set_default_eq_registered hl] at h
      simp at h
  | none =>
      cases hr : c.register cls with
      | mk c0 oe =>
          cases oe with
          | none =>
              have hstep : c._set_default cls =
                  ({ c0 with default_id := _get_class_name cls }, none) := by
                simp [Category._set_default, hl, hr]
              rw [hstep] at h
              simp at h
          | some e0 =>
              have hstep : c._set_default cls = (c0, some e0) := by
                simp [Category._set_default, hl, hr]
              rw [hstep] at h
              have hc0 := (register_err hr).1
              simp only [Prod.mk.injEq, Option.some.injEq] at h
              obtain ⟨h1, h2⟩ := h
              refine ⟨?_, rfl, ?_⟩
              · rw [← h1]
                exact hc0
              · rw [hc0, h2]

/-! ### The category invariant on reachable states -/

theorem WF_register {c : Category} (cls : PyClass) (h : WF c) :
    WF (c.register cls).1 := by
  cases hr : c.register cls with
  | mk c' oe =>
      cases oe with
      | some e =>
          have := (register_err hr).1
          simpa [this] using h
      | none =>
          obtain ⟨-, hc'⟩ := register_ok hr
          obtain ⟨h1, h2, h3, h4, h5⟩ := h
          subst hc'
          refine ⟨?_, ?_, ?_, ?_, ?_⟩
          · intro p hp
            rcases mem_dinsert hp with h6 | h6
            · rw [h6]
            · exact h1 p h6
          · intro p hp
            rcases mem_dinsert hp with h6 | h6
            · rw [h6]
              simp [dlookup_dinsert_self]
            · exact isSome_dlookup_dinsert _ _ (h2 p h6)
          · exact isSome_dlookup_dinsert _ _ h3
          · exact isSome_dlookup_dinsert _ _ h4
          · intro q hq
            rcases mem_dinsert hq with h6 | h6
            · rw [h6]
              simp [dlookup_dinsert_self]
            · obtain ⟨h7, h8⟩ := h5 q h6
              exact ⟨h7, isSome_dlookup_dinsert _ _ h8⟩

theorem WF_set_default {c : Category} (cls : PyClass) (h : WF c) :
    WF (c._set_default cls).1 := by
  cases hl : dlookup cls c.ids with
  | some k =>
      rw [set_default_eq_registered hl]
      obtain ⟨h1, h2, h3, h4, h5⟩ := h
      obtain ⟨hk, hsome⟩ := h5 (cls, k) (dlookup_mem hl)
      exact ⟨h1, h2, hk ▸ hsome, h4, h5⟩
  | none =>
      cases hr : c.register cls with
      | mk c0 oe =>
          cases oe with
          | some e =>
              have hc0 := (register_err hr).1
              have : c._set_default cls = (c0, some e) := by
                simp [Category._set_default, hl, hr]
              rw [this]
              simpa [hc0] using h
          | none =>
              obtain ⟨hok, hc0⟩ := register_ok hr
              rw [set_default_eq_new hl hok]
              have hwf0 : WF (c.register cls).1 := WF_register cls h
              rw [hr] at hwf0
              subst hc0
              obtain ⟨h1, h2, h3, h4, h5⟩ := hwf0
              refine ⟨h1, h2, ?_, h4, h5⟩
              rw [dlookup_dinsert_self]
              rfl

theorem WF_set_default_by_id {c : Category} (id_ : PyStr) (h : WF c) :
    WF (c.set_default_by_id id_).1 := by
  cases hl : dlookup id_ c.classes with
  | none => simpa [Category.set_default_by_id, hl] using h
  | some cls =>
      have : (c.set_default_by_id id_).1 = (c._set_default cls).1 := by
        simp [Category.set_default_by_id, hl]
      rw [this]
      exact WF_set_default cls h

theorem WF_init {n : PyStr} {sd : PyClass} {ifc : Option (List Iface)} {c : Category}
    (h : Category.init n sd ifc = Except.ok c) : WF c := by
  unfold Category.init at h
  cases hf : (ifc.getD []).find? (fun interface => !is_implementation sd interface) with
  | some i =>
      simp [Category._set_default, Category.register, dlookup, hf] at h
  | none =>
      simp [Category._set_default, Category.register, dlookup, dinsert, hf] at h
      rw [← h]
      refine ⟨?_, ?_, ?_, ?_, ?_⟩
      · intro p hp
        simp only [List.mem_singleton] at hp
        rw [hp]
      · intro p hp
        simp only [List.mem_singleton] at hp
        rw [hp]
        simp [dlookup]
      · simp [dlookup]
      · simp [dlookup]
      · intro q hq
        simp only [List.mem_singleton] at hq
        rw [hq]
        simp [dlookup]

theorem reachable_WF {c : Category} (h : Reachable c) : WF c := by
  induction h with
  | init n sd ifc c hc => exact WF_init hc
  | register c cls _ ih => exact WF_register cls ih
  | set_default c cls _ ih => exact WF_set_default cls ih
  | set_default_by_id c id_ _ ih => exact WF_set_default_by_id id_ ih

theorem init_ok {n : PyStr} {sd : PyClass} {ifc : Option (List Iface)} {c : Category}
    (h : Category.init n sd ifc = Except.ok c) :
    c = { name := n, system_default := sd, interfaces := ifc.getD [],
          classes := [(_get_class_name sd, sd)],
          ids := [(sd, _get_class_name sd)],
          default_id := _get_class_name sd } ∧
    ∀ i ∈ ifc.getD [], is_implementation sd i = true := by
  unfold Category.init at h
  cases hf : (ifc.getD []).find? (fun interface => !is_implementation sd interface) with
  | some i =>
      simp [Category._set_default, Category.register, dlookup, hf] at h
  | none =>
      constructor
      · simp [Category._set_default, Category.register, dlookup, dinsert, hf] at h
        exact h.symm
      · intro i hi
        have := List.find?_eq_none.mp hf i hi
        simpa using this

theorem get_class_name_eq (cls : PyClass) :
    _get_class_name cls = normalizedPath cls ++ ':' :: cls.name := rfl

theorem append_colon_inj {p1 p2 n1 n2 : List Char} (h1 : ':' ∉ n1) (h2 : ':' ∉ n2)
    (h : p1 ++ ':' :: n1 = p2 ++ ':' :: n2) : p1 = p2 ∧ n1 = n2 := by
  induction p1 generalizing p2 with
  | nil =>
      cases p2 with
      | nil => simpa using h
      | cons c p2' =>
          exfalso
          simp only [List.nil_append, List.cons_append, List.cons.injEq] at h
          obtain ⟨hc, ht⟩ := h
          apply h1
          rw [ht]
          exact List.mem_append_right _ (List.mem_cons_self _ _)
  | cons c p1' ih =>
      cases p2 with
      | nil =>
          exfalso
          simp only [List.cons_append, List.nil_append, List.cons.injEq] at h
          obtain ⟨hc, ht⟩ := h
          apply h2
          rw [← ht]
          exact List.mem_append_right _ (List.mem_cons_self _ _)
      | cons c' p2' =>
          simp only [List.cons_append, List.cons.injEq] at h
          obtain ⟨hc, ht⟩ := h
          obtain ⟨hp, hn⟩ := ih ht
          refine ⟨?_, hn⟩
          rw [hc, hp]

/-! ### The claims -/

/-- C1: for a category whose interface set the class `cls` fails,
`Category.register` raises the interface-mismatch `ValueError` and leaves
the category unchanged — the extensions dict is the same, and an identity
absent from it stays absent — and the module-level `register`, delegating
to it, raises the same error and leaves the registry unchanged. -/
theorem c1_register_mismatch_frame (cat : Category) (cls : PyClass)
    (reg : Registry) (nm : PyStr)
    (hreg : dlookup nm reg = some cat)
    (h : ∃ i ∈ cat.interfaces, is_implementation cls i = false) :
    (∃ i ∈ cat.interfaces, is_implementation cls i = false ∧
        cat.register cls = (cat, some (PyError.interfaceMismatch i))) ∧
    (cat.register cls).1.get_extensions = cat.get_extensions ∧
    (dlookup (_get_class_name cls) cat.get_extensions = none →
        dlookup (_get_class_name cls) (cat.register cls).1.get_extensions = none) ∧
    (∃ i, register reg nm cls = (reg, some (PyError.interfaceMismatch i))) := by
  obtain ⟨i, hi, hbad, heq⟩ := register_eq_err h
  refine ⟨⟨i, hi, hbad, heq⟩, ?_, ?_, ⟨i, ?_⟩⟩
  · rw [heq]
  · intro hnone
    rw [heq]
    exact hnone
  · simp [register, get_category, hreg, heq]

/-- Witness for C1: the dialog category rejects `brokenDialog`. -/
theorem c1_witness :
    dlookup dialogName dialogReg = some dialogCat ∧
    (∃ i ∈ dialogCat.interfaces, is_implementation brokenDialog i = false) ∧
    ((∃ i ∈ dialogCat.interfaces, is_implementation brokenDialog i = false ∧
        dialogCat.register brokenDialog =
          (dialogCat, some (PyError.interfaceMismatch i))) ∧
      (dialogCat.register brokenDialog).1.get_extensions = dialogCat.get_extensions ∧
      (dlookup (_get_class_name brokenDialog) dialogCat.get_extensions = none →
        dlookup (_get_class_name brokenDialog)
          (dialogCat.register brokenDialog).1.get_extensions = none) ∧
      (∃ i, register dialogReg dialogName brokenDialog =
        (dialogReg, some (PyError.interfaceMismatch i)))) :=
  ⟨by decide, by decide,
    c1_register_mismatch_frame dialogCat brokenDialog dialogReg dialogName
      (by decide) (by decide)⟩

/-- C2: on a well-formed category state, `set_default_by_id` with an
unregistered id raises the unknown-extension-id `ValueError` and leaves
the state (hence its current default) unchanged; with a registered id it
succeeds, only `default_id` changes, and the default getter afterwards
returns the class stored under that id. -/
theorem c2_set_default_by_id_spec (cat : Category) (id_ : PyStr) (hwf : WF cat) :
    (dlookup id_ cat.classes = none →
        cat.set_default_by_id id_ =
          (cat, some (PyError.unknownExtensionId cat.name))) ∧
    (∀ cls, dlookup id_ cat.classes = some cls →
        cat.set_default_by_id id_ =
          ({ cat with default_id := _get_class_name cls }, none) ∧
        ({ cat with default_id := _get_class_name cls } : Category)._get_default =
          Except.ok cls) := by
  constructor
  · intro hnone
    simp [Category.set_default_by_id, hnone]
  · intro cls hsome
    have hmem : (id_, cls) ∈ cat.classes := dlookup_mem hsome
    have hid : _get_class_name cls = id_ := hwf.1 (id_, cls) hmem
    have hids : (dlookup cls cat.ids).isSome = true := hwf.2.1 (id_, cls) hmem
    obtain ⟨k, hk⟩ := Option.isSome_iff_exists.mp hids
    constructor
    · simp [Category.set_default_by_id, hsome, set_default_eq_registered hk]
    · simp [Category._get_default, hid, hsome]

/-- Witness for C2: the dialog category, with the system default's id. -/
theorem c2_witness :
    WF dialogCat ∧
    ((dlookup (_get_class_name basicDialog) dialogCat.classes = none →
        dialogCat.set_default_by_id (_get_class_name basicDialog) =
          (dialogCat, some (PyError.unknownExtensionId dialogCat.name))) ∧
      (∀ cls, dlookup (_get_class_name basicDialog) dialogCat.classes = some cls →
        dialogCat.set_default_by_id (_get_class_name basicDialog) =
          ({ dialogCat with default_id := _get_class_name cls }, none) ∧
        ({ dialogCat with default_id := _get_class_name cls } : Category)._get_default =
          Except.ok cls)) :=
  ⟨by decide,
    c2_set_default_by_id_spec dialogCat (_get_class_name basicDialog) (by decide)⟩

/-- C3 (counterexample): at the concrete class `lazyDialog`, whose
`confirm` attribute exists but is not callable, checked against
`iConfirm` (which requires `confirm`): the source's `is_implementation`
accepts it (`hasattr` only), while the claimed "present as a callable
member" criterion — `is_implementation_spec` — rejects it, so the claimed
equivalence fails at this input. -/
theorem c3_counterexample :
    is_implementation lazyDialog (some iConfirm) = true ∧
    is_implementation_spec lazyDialog (some iConfirm) = false := by decide

/-- C3 (amended): `is_implementation cls interface` is true iff every
non-underscore attribute name of the interface class is present as an
attribute of any kind on `cls` (callability is not checked); the `None`
interface — and likewise an interface with no public attribute names —
is implemented by every class. -/
theorem c3_conformance_iff (cls : PyClass) :
    (∀ ic : PyClass,
      (is_implementation cls (some ic) = true ↔
        ∀ p ∈ ic.attrs, startsUnderscore p.1 = false →
          ∃ q ∈ cls.attrs, q.1 = p.1)) ∧
    is_implementation cls none = true := by
  constructor
  · intro ic
    unfold is_implementation public_methods hasattr
    rw [List.all_eq_true]
    constructor
    · intro h p hp hu
      have hm : p.1 ∈ (ic.attrs.map Prod.fst).filter
          (fun attrName => !startsUnderscore attrName) := by
        rw [List.mem_filter]
        refine ⟨List.mem_map_of_mem _ hp, ?_⟩
        rw [hu]
        rfl
      have h2 := h p.1 hm
      rw [List.any_eq_true] at h2
      obtain ⟨q, hq, hbeq⟩ := h2
      exact ⟨q, hq, by simpa using hbeq⟩
    · intro h m hm
      rw [List.mem_filter] at hm
      obtain ⟨hmap, hund⟩ := hm
      rw [List.mem_map] at hmap
      obtain ⟨p, hp, hpe⟩ := hmap
      have hu : startsUnderscore p.1 = false := by
        rw [hpe]
        simpa using hund
      obtain ⟨q, hq, hqe⟩ := h p hp hu
      rw [List.any_eq_true]
      refine ⟨q, hq, ?_⟩
      rw [beq_iff_eq, hqe, hpe]
  · rfl

/-- C4 (the code evaluated at a failing input): the module-level
`set_default` calls `get_category(category_name).set_default(cls)`, but
class `Category` defines no attribute `set_default` (the setter is the
`default` property backed by `_set_default`), so once the category lookup
succeeds the call raises `AttributeError`: here, on the concrete dialog
registry with the conforming `fancyDialog`, instead of registering it and
making it the default. -/
theorem c4_set_default_attribute_error :
    set_default dialogReg dialogName fancyDialog =
      (dialogReg, some (PyError.attributeError ("set_default".data))) := by decide

/-- C5 (counterexample): after creating the dialog category and
registering `fancyDialog`, its identity is present in the extensions of
`"dialog"`; calling `category_register` again with the same name succeeds
and afterwards that identity is gone — prior registrations are
discarded, refuting the claim that they are preserved. -/
theorem c5_counterexample :
    (dlookup (_get_class_name fancyDialog) (extensions_of c5reg1 dialogName)).isSome
        = true ∧
    (category_register c5reg1 dialogName basicDialog [some iConfirm]).2 = none ∧
    dlookup (_get_class_name fancyDialog) (extensions_of c5reg2 dialogName) = none := by
  decide

/-- C5 (amended): a successful `category_register` — also when the name
already exists — replaces the slot with a fresh category whose extensions
dict holds exactly the (new) system default's entry, which is also the
current default; previously registered identities are not retained. -/
theorem c5_category_register_replaces (reg : Registry) (nm : PyStr) (sd : PyClass)
    (ifaces : List Iface) (reg' : Registry)
    (h : category_register reg nm sd ifaces = (reg', none)) :
    ∃ cat, dlookup nm reg' = some cat ∧
      cat.get_extensions = [(_get_class_name sd, sd)] ∧
      cat.default_id = _get_class_name sd := by
  cases hi : Category.init nm sd (some ifaces) with
  | error e => simp [category_register, hi] at h
  | ok cat =>
      simp only [category_register, hi, Prod.mk.injEq] at h
      obtain ⟨hr, -⟩ := h
      obtain ⟨hcat, -⟩ := init_ok hi
      refine ⟨cat, ?_, ?_, ?_⟩
      · rw [← hr]
        exact dlookup_dinsert_self nm cat reg
      · rw [hcat]
        rfl
      · rw [hcat]

/-- Witness for C5's amended theorem: re-creating `"dialog"` over
`c5reg1` yields a category holding exactly `basicDialog`. -/
theorem c5_witness :
    category_register c5reg1 dialogName basicDialog [some iConfirm] = (c5reg2, none) ∧
    (∃ cat, dlookup dialogName c5reg2 = some cat ∧
      cat.get_extensions = [(_get_class_name basicDialog, basicDialog)] ∧
      cat.default_id = _get_class_name basicDialog) :=
  ⟨by decide,
    c5_category_register_replaces c5reg1 dialogName basicDialog [some iConfirm]
      c5reg2 (by decide)⟩

/-- C6: in every reachable category state the system default's identity
and the current `default_id` are keys of the registered mapping, and the
default getter succeeds — it never looks up a dangling key. -/
theorem c6_reachable_default_keys (cat : Category) (h : Reachable cat) :
    (dlookup (_get_class_name cat.system_default) cat.classes).isSome = true ∧
    (dlookup cat.default_id cat.classes).isSome = true ∧
    ∃ cls, cat._get_default = Except.ok cls := by
  obtain ⟨-, -, h3, h4, -⟩ := reachable_WF h
  refine ⟨h4, h3, ?_⟩
  obtain ⟨cls, hc⟩ := Option.isSome_iff_exists.mp h3
  exact ⟨cls, by simp [Category._get_default, hc]⟩

/-- Witness for C6: the freshly constructed dialog category is reachable
and its lookups succeed. -/
theorem c6_witness :
    (dlookup (_get_class_name dialogCat.system_default) dialogCat.classes).isSome
        = true ∧
    (dlookup dialogCat.default_id dialogCat.classes).isSome = true ∧
    (∃ cls, dialogCat._get_default = Except.ok cls) :=
  c6_reachable_default_keys dialogCat
    (Reachable.init dialogName basicDialog (some [some iConfirm]) dialogCat
      (by decide))

/-- C7: registering the same class a second time is idempotent: the
second call also succeeds and leaves the category exactly as it was, so
the extensions dict has the same number of entries and, when that class
was the current default, it still is. -/
theorem c7_register_idempotent (cat : Category) (cls : PyClass) (cat1 : Category)
    (h : cat.register cls = (cat1, none)) :
    cat1.register cls = (cat1, none) ∧
    (cat1.register cls).1.get_extensions.length = cat1.get_extensions.length ∧
    (cat1._get_default = Except.ok cls →
      (cat1.register cls).1._get_default = Except.ok cls) := by
  obtain ⟨hok, hc1⟩ := register_ok h
  have hok1 : ∀ i ∈ cat1.interfaces, is_implementation cls i = true := by
    intro i hi
    apply hok
    rw [hc1] at hi
    simpa using hi
  have hcl : dinsert (_get_class_name cls) cls cat1.classes = cat1.classes := by
    rw [hc1]
    simp [dinsert_dinsert_self]
  have hid : dinsert cls (_get_class_name cls) cat1.ids = cat1.ids := by
    rw [hc1]
    simp [dinsert_dinsert_self]
  have h2 := register_eq_ok hok1
  rw [hcl, hid] at h2
  have h3 : cat1.register cls = (cat1, none) := h2
  refine ⟨h3, by rw [h3], fun hd => by rw [h3]; exact hd⟩

/-- Witness for C7: re-registering `basicDialog` (the current default)
into the dialog category. -/
theorem c7_witness :
    dialogCat.register basicDialog = (dialogCatDup, none) ∧
    (dialogCatDup.register basicDialog = (dialogCatDup, none) ∧
      (dialogCatDup.register basicDialog).1.get_extensions.length =
        dialogCatDup.get_extensions.length ∧
      (dialogCatDup._get_default = Except.ok basicDialog →
        (dialogCatDup.register basicDialog).1._get_default =
          Except.ok basicDialog)) :=
  ⟨by decide, c7_register_idempotent dialogCat basicDialog dialogCatDup (by decide)⟩

/-- C8: immediately after a successful
`category_register(name, system_default, ...)`, `get_default(name)`
returns exactly the system default. -/
theorem c8_initial_default (reg : Registry) (nm : PyStr) (sd : PyClass)
    (ifaces : List Iface) (reg' : Registry)
    (h : category_register reg nm sd ifaces = (reg', none)) :
    get_default reg' nm = Except.ok sd := by
  cases hi : Category.init nm sd (some ifaces) with
  | error e => simp [category_register, hi] at h
  | ok cat =>
      simp only [category_register, hi, Prod.mk.injEq] at h
      obtain ⟨hr, -⟩ := h
      obtain ⟨hcat, -⟩ := init_ok hi
      rw [← hr]
      simp [get_default, get_category, dlookup_dinsert_self, hcat,
        Category._get_default, dlookup]

/-- Witness for C8: creating the dialog category on the empty registry
makes `basicDialog` the default. -/
theorem c8_witness :
    category_register [] dialogName basicDialog [some iConfirm] = (c5reg0, none) ∧
    get_default c5reg0 dialogName = Except.ok basicDialog :=
  ⟨by decide,
    c8_initial_default [] dialogName basicDialog [some iConfirm] c5reg0 (by decide)⟩

/-- C9 (counterexample): `basicDialog` and `basicDialogTwin` are two
distinct implementation types (their attribute sets differ — e.g. the
class was redefined in its module) that live in the same module file
under the same class name, and they receive the same identity — so
`_get_class_name` is not injective on implementation types. -/
theorem c9_counterexample :
    basicDialog ≠ basicDialogTwin ∧
    _get_class_name basicDialog = _get_class_name basicDialogTwin := by decide

/-- C9 (amended): identity computation is deterministic (a pure function
of the type), and for colon-free class names (Python identifiers) two
types receive equal identities exactly when they agree on the
`.pyc`-normalised module path and on the class name; types differing
anywhere else (e.g. only in their attributes) collide. -/
theorem c9_identity_characterization (c1 c2 : PyClass)
    (h1 : ':' ∉ c1.name) (h2 : ':' ∉ c2.name) :
    _get_class_name c1 = _get_class_name c2 ↔
      (normalizedPath c1 = normalizedPath c2 ∧ c1.name = c2.name) := by
  constructor
  · intro h
    rw [get_class_name_eq, get_class_name_eq] at h
    exact append_colon_inj h1 h2 h
  · rintro ⟨hp, hn⟩
    rw [get_class_name_eq, get_class_name_eq, hp, hn]

/-- Witness for C9's amended theorem, at the two same-named classes. -/
theorem c9_witness :
    (':' ∉ basicDialog.name) ∧ (':' ∉ basicDialogTwin.name) ∧
    (_get_class_name basicDialog = _get_class_name basicDialogTwin ↔
      (normalizedPath basicDialog = normalizedPath basicDialogTwin ∧
        basicDialog.name = basicDialogTwin.name)) :=
  ⟨by decide, by decide,
    c9_identity_characterization basicDialog basicDialogTwin (by decide) (by decide)⟩

/-- C10: when the supplied system default fails one of the supplied
interface descriptors, `category_register` raises the interface-mismatch
`ValueError` during `Category` construction and the registry is left
unchanged — in particular the entry under that name (present or absent)
is untouched. -/
theorem c10_category_register_mismatch (reg : Registry) (nm : PyStr) (sd : PyClass)
    (ifaces : List Iface)
    (h : ∃ i ∈ ifaces, is_implementation sd i = false) :
    (∃ i ∈ ifaces, is_implementation sd i = false ∧
        category_register reg nm sd ifaces =
          (reg, some (PyError.interfaceMismatch i))) ∧
    dlookup nm (category_register reg nm sd ifaces).1 = dlookup nm reg := by
  cases hf : ifaces.find? (fun interface => !is_implementation sd interface) with
  | none =>
      exfalso
      obtain ⟨i, hi, hbad⟩ := h
      have := List.find?_eq_none.mp hf i hi
      simp [hbad] at this
  | some i =>
      have hi := List.mem_of_find?_eq_some hf
      have hbad : is_implementation sd i = false := by
        simpa using List.find?_some hf
      have hinit : Category.init nm sd (some ifaces) =
          Except.error (PyError.interfaceMismatch i) := by
        simp [Category.init, Category._set_default, Category.register, dlookup, hf]
      refine ⟨⟨i, hi, hbad, ?_⟩, ?_⟩
      · simp [category_register, hinit]
      · simp [category_register, hinit]

/-- Witness for C10: creating a category with the non-conforming
`brokenDialog` as system default fails and leaves the registry as it
was. -/
theorem c10_witness :
    (∃ i ∈ [some iConfirm], is_implementation brokenDialog i = false) ∧
    ((∃ i ∈ [some iConfirm], is_implementation brokenDialog i = false ∧
        category_register dialogReg dialogName brokenDialog [some iConfirm] =
          (dialogReg, some (PyError.interfaceMismatch i))) ∧
      dlookup dialogName
          (category_register dialogReg dialogName brokenDialog [some iConfirm]).1 =
        dlookup dialogName dialogReg) :=
  ⟨by decide,
    c10_category_register_mismatch dialogReg dialogName brokenDialog
      [some iConfirm] (by decide)⟩
